import Mathlib

/-!
Verification development for the autocar repository.

The two core components, the protection-zone engine
(src/car_layers/app_calculator.py) and the reserve allocator
(src/car_layers/reserva_legal.py), are embedded shallowly.  Pure
arithmetic (rule tables, percentages, the 95 percent completeness
test) is translated to rational arithmetic.  Planar geometry is the
job of the external shapely library, so geometric primitives
(buffer, intersection, difference, union, area, emptiness) appear as
an explicit operations record `GeoOps`; the control flow of every
embedded function is translated line by line from the Python source,
while `GeoOps` is instantiated with concrete executable models:

* `FOps`, finite sets of unit cells tagged with a part identifier
  (set semantics for intersection, difference and union; area is the
  cell count; a geometry is a MultiPolygon when it holds more than
  one part identifier), with the buffer operator kept as an
  arbitrary function parameter; and
* `POps`, rational point clouds whose buffer is the union of the
  open metric discs around the cloud (shapely approximates a disc by
  an inscribed polygon, so a buffer that merely reaches distance
  exactly r away from the feature does not touch it).
-/

set_option maxRecDepth 4000

namespace AutoCar

/-! ## Abstract geometry operations (the shapely collaborator) -/

/-- Operations the embedded code needs from the geometry library. -/
structure GeoOps (G : Type) where
  area : G → ℚ
  inter : G → G → G
  diff : G → G → G
  union2 : G → G → G
  buffer : G → ℚ → G
  isEmpty : G → Bool
  emptyG : G
  isMulti : G → Bool
  largest : G → G

/-- shapely unary_union over a list of geometries, folded with the
binary union of the operations record. -/
def unary_union {G : Type} (ops : GeoOps G) : List G → G
  | [] => ops.emptyG
  | g :: gs => gs.foldl ops.union2 g

/-! ## Constants from src/config.py -/

/-- APP_MARGEM from src/config.py, already in the order produced by
sorted(APP_MARGEM.items()); the key float(inf) is modelled as none. -/
def APP_MARGEM : List (Option ℚ × ℚ) :=
  [(some 10, 30), (some 50, 50), (some 200, 100), (some 600, 200), (none, 500)]

/-- APP_NASCENTE_RAIO_M from src/config.py. -/
def APP_NASCENTE_RAIO_M : ℚ := 50

/-- APP_LAGO_PEQUENO_M from src/config.py. -/
def APP_LAGO_PEQUENO_M : ℚ := 50

/-- APP_LAGO_GRANDE_M from src/config.py. -/
def APP_LAGO_GRANDE_M : ℚ := 100

/-- RESERVA_LEGAL_PERCENT from src/config.py. -/
def RESERVA_LEGAL_PERCENT : List (String × ℚ) :=
  [("MATA_ATLANTICA", 20/100), ("CERRADO", 20/100), ("AMAZONIA", 80/100)]

/-! ## Python decimal formatting (f-string 03d) and round(x, 4)

These model the Python standard library formatting used by the
source when it builds zone codes and rounds reported areas. -/

/-- Little-endian decimal digits of n, with fuel (fuel at least n). -/
def digitsLE : ℕ → ℕ → List ℕ
  | 0, _ => []
  | _ + 1, 0 => []
  | fuel + 1, n + 1 => ((n + 1) % 10) :: digitsLE fuel ((n + 1) / 10)

/-- Big-endian decimal digit list of n (empty for 0). -/
def decDigits (n : ℕ) : List ℕ := (digitsLE n n).reverse

/-- Digit list of f-string 03d formatting: left pad with zeros to
width three. -/
def pyFmt03 (n : ℕ) : List ℕ :=
  List.replicate (3 - (decDigits n).length) 0 ++ decDigits n

/-- Python f-string 03d formatting of a natural number. -/
def fmt03 (n : ℕ) : String := String.mk ((pyFmt03 n).map Nat.digitChar)

/-- Inverse of Nat.digitChar on decimal digits. -/
def undigit (c : Char) : ℕ := c.toNat - 48

/-- Python round(x, 4).  Python rounds ties to even while Mathlib
round rounds ties up; the two agree away from exact half ties, and no
claim in this development touches a tie. -/
def round4 (x : ℚ) : ℚ := ((round (x * 10000) : ℤ) : ℚ) / 10000

/-! ## src/car_layers/app_calculator.py -/

/-- One row of the rivers GeoDataFrame: geometry plus the optional
largura_m attribute. -/
structure RiverRow (G : Type) where
  geometry : G
  largura_m : Option ℚ
deriving DecidableEq

/-- One row of the nascentes GeoDataFrame. -/
structure NascRow (G : Type) where
  geometry : G
deriving DecidableEq

/-- One row of the lagos GeoDataFrame: geometry plus the optional
area_ha attribute. -/
structure LakeRow (G : Type) where
  geometry : G
  area_ha : Option ℚ
deriving DecidableEq

/-- One emitted APP record (the dictionaries appended by
calculate_app_margem, calculate_app_nascente, calculate_app_lago);
fields absent from a given classification are none. -/
structure AppRecord (G : Type) where
  geometry : G
  cod_app : String
  tip_app : String
  des_condic : String
  num_area : ℚ
  buffer_m : ℚ
  largura_rio_m : Option ℚ
  area_lago_ha : Option ℚ
deriving DecidableEq

/-- Walk the sorted APP_MARGEM table: return the first buffer whose
upper bound is at least the width (the none bound, float(inf), always
matches); past the table return 500. -/
def margem_lookup (w : ℚ) : List (Option ℚ × ℚ) → ℚ
  | [] => 500
  | (none, b) :: _ => b
  | (some m, b) :: rest => if w ≤ m then b else margem_lookup w rest

/-- APPCalculator._get_buffer_by_width from
src/car_layers/app_calculator.py. -/
def get_buffer_by_width (w : ℚ) : ℚ := margem_lookup w APP_MARGEM

/-- Body of the loop of APPCalculator.calculate_app_margem for the
row at position idx; returns the appended record, or none when the
buffered river does not meet the perimeter.  Reprojection back to
geographic coordinates is modelled as the identity. -/
def margem_zone {G : Type} (ops : GeoOps G) (perimeter : G) (idx : ℕ)
    (row : RiverRow G) : Option (AppRecord G) :=
  let largura := row.largura_m.getD 5
  let buffer_m := get_buffer_by_width largura
  let app_buffer := ops.buffer row.geometry buffer_m
  let app_dentro := ops.inter app_buffer perimeter
  if ops.isEmpty app_dentro then none
  else some ⟨app_dentro, "APP_MARGEM_" ++ fmt03 (idx + 1), "MARGEM_CURSO_DAGUA",
    "A_CLASSIFICAR", round4 (ops.area app_dentro / 10000), buffer_m, some largura, none⟩

/-- APPCalculator.calculate_app_margem from
src/car_layers/app_calculator.py (rows are iterated with their
positional index, the default pandas range index). -/
def calculate_app_margem {G : Type} (ops : GeoOps G) (perimeter : G)
    (rivers : List (RiverRow G)) : List (AppRecord G) :=
  rivers.enum.filterMap (fun p => margem_zone ops perimeter p.fst p.snd)

/-- Body of the loop of APPCalculator.calculate_app_nascente for the
row at position idx. -/
def nascente_zone {G : Type} (ops : GeoOps G) (perimeter : G) (idx : ℕ)
    (row : NascRow G) : Option (AppRecord G) :=
  let app_buffer := ops.buffer row.geometry APP_NASCENTE_RAIO_M
  let app_dentro := ops.inter app_buffer perimeter
  if ops.isEmpty app_dentro then none
  else some ⟨app_dentro, "APP_NASC_" ++ fmt03 (idx + 1), "NASCENTE",
    "A_CLASSIFICAR", round4 (ops.area app_dentro / 10000), APP_NASCENTE_RAIO_M, none, none⟩

/-- APPCalculator.calculate_app_nascente from
src/car_layers/app_calculator.py. -/
def calculate_app_nascente {G : Type} (ops : GeoOps G) (perimeter : G)
    (nascentes : List (NascRow G)) : List (AppRecord G) :=
  nascentes.enum.filterMap (fun p => nascente_zone ops perimeter p.fst p.snd)

/-- Body of the loop of APPCalculator.calculate_app_lago for the row
at position idx: the buffer width comes from the two-tier area
threshold, and the zone is the buffered footprint minus the lake
itself, intersected with the perimeter. -/
def lago_zone {G : Type} (ops : GeoOps G) (perimeter : G) (idx : ℕ)
    (row : LakeRow G) : Option (AppRecord G) :=
  let area_ha := row.area_ha.getD (ops.area row.geometry / 10000)
  let buffer_m := if 20 < area_ha then APP_LAGO_GRANDE_M else APP_LAGO_PEQUENO_M
  let app_buffer := ops.diff (ops.buffer row.geometry buffer_m) row.geometry
  let app_dentro := ops.inter app_buffer perimeter
  if ops.isEmpty app_dentro then none
  else some ⟨app_dentro, "APP_LAGO_" ++ fmt03 (idx + 1), "LAGO_LAGOA",
    "A_CLASSIFICAR", round4 (ops.area app_dentro / 10000), buffer_m, none, some area_ha⟩

/-- APPCalculator.calculate_app_lago from
src/car_layers/app_calculator.py. -/
def calculate_app_lago {G : Type} (ops : GeoOps G) (perimeter : G)
    (lagos : List (LakeRow G)) : List (AppRecord G) :=
  lagos.enum.filterMap (fun p => lago_zone ops perimeter p.fst p.snd)

/-! ## src/car_layers/reserva_legal.py -/

/-- RESERVA_LEGAL_PERCENT.get(bioma, 0.20) from
ReservaLegalCalculator.__init__. -/
def biome_percent (bioma : String) : ℚ :=
  ((RESERVA_LEGAL_PERCENT.find? (fun kv => kv.fst == bioma)).map Prod.snd).getD (20/100)

/-- ReservaLegalCalculator.calculate_required_area: metric parcel
area in hectares times the biome percentage. -/
def calculate_required_area {G : Type} (ops : GeoOps G) (perimeter : G)
    (bioma : String) : ℚ :=
  ops.area perimeter / 10000 * biome_percent bioma

/-- ReservaLegalCalculator._extract_area: the source returns the
whole geometry in both branches (the exact-area extraction is a
documented simplification). -/
def extract_area {G : Type} (ops : GeoOps G) (g : G) (target_m2 : ℚ) : G :=
  if ops.area g ≤ target_m2 then g else g

/-- Buffer step sizes tried by _select_contigua_app, in source
order. -/
def BUFFER_STEPS : List ℚ := [50, 100, 200, 500, 1000, 2000]

/-- The progressive-buffer loop of _select_contigua_app: for each
step size, buffer the APP union, intersect with the available area,
and return the first candidate whose area meets the requirement;
when every step falls short return the whole available area. -/
def contigua_loop {G : Type} (ops : GeoOps G) (app_union disponivel : G)
    (required_m2 : ℚ) : List ℚ → G
  | [] => disponivel
  | b :: rest =>
    let area_contigua := ops.inter (ops.buffer app_union b) disponivel
    if required_m2 ≤ ops.area area_contigua then extract_area ops area_contigua required_m2
    else contigua_loop ops app_union disponivel required_m2 rest

/-- ReservaLegalCalculator._select_contigua_app; the empty list
models an app_gdf that is None or empty. -/
def select_contigua_app {G : Type} (ops : GeoOps G) (disponivel : G)
    (app_gdf : List G) (required_m2 : ℚ) : G :=
  if app_gdf.isEmpty then extract_area ops disponivel required_m2
  else contigua_loop ops (unary_union ops app_gdf) disponivel required_m2 BUFFER_STEPS

/-- ReservaLegalCalculator._calculate_available_area: the perimeter
minus the APP union, collapsed to its largest part when the
difference is a MultiPolygon; with no APP, the perimeter itself. -/
def calculate_available_area {G : Type} (ops : GeoOps G) (perimeter : G)
    (app_gdf : List G) : G :=
  if app_gdf.isEmpty then perimeter
  else
    let d := ops.diff perimeter (unary_union ops app_gdf)
    if ops.isMulti d then ops.largest d else d

/-- ReservaLegalCalculator._select_rl_area: native vegetation first,
then area contiguous to the APP union. -/
def select_rl_area {G : Type} (ops : GeoOps G) (disponivel : G)
    (required_m2 : ℚ) (app_gdf veg_gdf : List G) : G :=
  if veg_gdf.isEmpty then select_contigua_app ops disponivel app_gdf required_m2
  else
    let veg_union := unary_union ops veg_gdf
    let veg_disponivel := ops.inter veg_union disponivel
    if ops.isEmpty veg_disponivel then select_contigua_app ops disponivel app_gdf required_m2
    else if required_m2 ≤ ops.area veg_disponivel then
      extract_area ops veg_disponivel required_m2
    else
      ops.union2 veg_disponivel
        (select_contigua_app ops (ops.diff disponivel veg_disponivel) app_gdf
          (required_m2 - ops.area veg_disponivel))

/-- ReservaLegalCalculator._utm_to_wgs84: a MultiPolygon is collapsed
to its largest part before reprojection; reprojection itself is
modelled as the identity. -/
def utm_to_wgs84_rl {G : Type} (ops : GeoOps G) (g : G) : G :=
  if ops.isMulti g then ops.largest g else g

/-- The single row of the GeoDataFrame built by suggest_location. -/
structure RLRecord (G : Type) where
  geometry : G
  cod_rl : String
  des_condic : String
  num_area : ℚ
  ind_averbada : String
  num_matricula : String
  pct_exigido : ℚ
  area_exigida_ha : ℚ
deriving DecidableEq

/-- ReservaLegalCalculator.suggest_location from
src/car_layers/reserva_legal.py. -/
def suggest_location {G : Type} (ops : GeoOps G) (perimeter : G) (bioma : String)
    (app_gdf veg_gdf : List G) : RLRecord G :=
  let required_ha := calculate_required_area ops perimeter bioma
  let required_m2 := required_ha * 10000
  let disponivel := calculate_available_area ops perimeter app_gdf
  let rl_geometry := select_rl_area ops disponivel required_m2 app_gdf veg_gdf
  let rl_wgs84 := utm_to_wgs84_rl ops rl_geometry
  let area_ha := ops.area rl_geometry / 10000
  let condic := if required_ha * (95/100) ≤ area_ha then "PROPOSTA" else "PROPOSTA_INCOMPLETA"
  ⟨rl_wgs84, "RL_001", condic, round4 area_ha, "N", "", biome_percent bioma * 100,
    round4 required_ha⟩

/-- The legal-reserve geometry selected in the metric frame inside
suggest_location, before the MultiPolygon collapse of
_utm_to_wgs84. -/
def rl_metric {G : Type} (ops : GeoOps G) (perimeter : G) (bioma : String)
    (app_gdf veg_gdf : List G) : G :=
  select_rl_area ops (calculate_available_area ops perimeter app_gdf)
    (calculate_required_area ops perimeter bioma * 10000) app_gdf veg_gdf

/-! ## Concrete model 1: finite cell sets with part identifiers -/

/-- A unit cell of one square meter: part identifier and cell
number.  A geometry is a finite set of cells; it is a MultiPolygon
when its cells carry more than one part identifier. -/
abbrev Cell : Type := ℕ × ℕ

/-- Part identifiers present in a cell-set geometry. -/
def partIds (g : Finset Cell) : Finset ℕ := g.image Prod.fst

/-- The cells of one part of a cell-set geometry. -/
def partOf (g : Finset Cell) (i : ℕ) : Finset Cell := g.filter (fun c => c.fst = i)

/-- Identifier of a part with the most cells (smallest such
identifier, a deterministic stand-in for the first maximum that
Python max returns over the geoms tuple). -/
def largestPartId (g : Finset Cell) : Option ℕ :=
  (((partIds g).filter
      (fun i => ∀ j ∈ partIds g, (partOf g j).card ≤ (partOf g i).card)).min : Option ℕ)

/-- The largest part of a cell-set geometry. -/
def largestPart (g : Finset Cell) : Finset Cell :=
  match largestPartId g with
  | none => g
  | some i => partOf g i

/-- Cell-set instantiation of the geometry operations: genuine set
semantics for intersection, difference and union, area equal to the
cell count, and an arbitrary buffer operator passed as a
parameter. -/
def FOps (buf : Finset Cell → ℚ → Finset Cell) : GeoOps (Finset Cell) :=
  ⟨fun g => (g.card : ℚ), (· ∩ ·), (· \ ·), (· ∪ ·), buf,
    fun g => decide (g = ∅), ∅, fun g => decide (1 < (partIds g).card), largestPart⟩

/-- Buffer operator that leaves the geometry unchanged. -/
def bufId : Finset Cell → ℚ → Finset Cell := fun g _ => g

/-! ## Concrete model 2: rational point clouds with open-disc buffers -/

/-- A point of the rational plane. -/
abbrev Q2 : Type := ℚ × ℚ

/-- Squared euclidean distance between two rational points. -/
def sqDist (p q : Q2) : ℚ := (p.fst - q.fst) ^ 2 + (p.snd - q.snd) ^ 2

/-- Point-cloud geometry: either a bare cloud of points, or the
union of the open discs of radius r around a cloud (the result of a
buffer).  shapely realises a buffer as a polygon inscribed in the
true disc, so the open disc is the faithful idealisation for
emptiness tests of intersections with it. -/
inductive PGeo : Type
  | cloud (pts : List Q2)
  | disc (pts : List Q2) (r : ℚ)
deriving DecidableEq

/-- Membership of a point in a point-cloud geometry. -/
def PGeo.memB : PGeo → Q2 → Bool
  | PGeo.cloud pts, p => pts.contains p
  | PGeo.disc pts r, p => pts.any (fun q => decide (sqDist p q < r ^ 2))

/-- Intersection with a cloud filters the cloud; the disc-disc case
is unreachable in the embedded code paths and returns the left
argument. -/
def pInter (g h : PGeo) : PGeo :=
  match h with
  | PGeo.cloud pts => PGeo.cloud (pts.filter (fun p => g.memB p))
  | PGeo.disc _ _ => g

/-- Difference filters a cloud; disc minuends are unreachable in the
embedded code paths. -/
def pDiff (g h : PGeo) : PGeo :=
  match g with
  | PGeo.cloud pts => PGeo.cloud (pts.filter (fun p => !h.memB p))
  | PGeo.disc _ _ => g

/-- Union of two clouds concatenates them; mixed cases are
unreachable in the embedded code paths. -/
def pUnion (g h : PGeo) : PGeo :=
  match g, h with
  | PGeo.cloud a, PGeo.cloud b => PGeo.cloud (a ++ b)
  | _, _ => g

/-- Buffering a cloud produces the open-disc union around it. -/
def pBuffer (g : PGeo) (r : ℚ) : PGeo :=
  match g with
  | PGeo.cloud pts => PGeo.disc pts r
  | PGeo.disc pts s => PGeo.disc pts (s + r)

/-- Emptiness of a point-cloud geometry. -/
def pIsEmpty : PGeo → Bool
  | PGeo.cloud pts => pts.isEmpty
  | PGeo.disc pts r => pts.isEmpty || decide (r ^ 2 ≤ 0)

/-- Area of a point-cloud geometry (only cloud areas matter to the
embedded emptiness and attribute logic). -/
def pArea : PGeo → ℚ
  | PGeo.cloud pts => (pts.dedup.length : ℚ)
  | PGeo.disc _ _ => 0

/-- Point-cloud instantiation of the geometry operations. -/
def POps : GeoOps PGeo :=
  ⟨pArea, pInter, pDiff, pUnion, pBuffer, pIsEmpty, PGeo.cloud [],
    fun _ => false, id⟩

/-! ## Concrete model 3: a geometry is just its area

A one-dimensional abstraction: intersection takes the smaller area,
difference subtracts, union adds, buffering changes nothing.  Used to
witness theorems that only constrain areas and statuses. -/

/-- Area-only instantiation of the geometry operations. -/
def QOps : GeoOps ℚ :=
  ⟨id, min, (· - ·), (· + ·), fun g _ => g, fun g => decide (g = 0), 0,
    fun _ => false, id⟩

/-! ## Concrete instances used by witnesses and counterexamples -/

/-- A two-part parcel: part 0 has three cells, part 1 has two. -/
def perC10 : Finset Cell := {(0, 0), (0, 1), (0, 2), (1, 0), (1, 1)}

/-- Buffer operator that always adds the cell (0, 1). -/
def bufW : Finset Cell → ℚ → Finset Cell := fun g _ => g ∪ {(0, 1)}

/-- The lake zone emitted for a one-cell lake at (0, 0) under bufW
with the parcel cell (0, 1). -/
def zC7 : AppRecord (Finset Cell) :=
  ⟨{(0, 1)}, "APP_LAGO_001", "LAGO_LAGOA", "A_CLASSIFICAR",
    round4 ((1 : ℚ) / 10000), 50, none, some ((1 : ℚ) / 10000)⟩

/-- The river-margin zone emitted for a one-cell river at (0, 0)
inside a one-cell parcel under the identity buffer. -/
def zC9 : AppRecord (Finset Cell) :=
  ⟨{(0, 0)}, "APP_MARGEM_001", "MARGEM_CURSO_DAGUA", "A_CLASSIFICAR",
    round4 ((1 : ℚ) / 10000), 30, some 5, none⟩

/-! ## Shared helper lemmas -/

/-- The buffer table walk as a chain of conditionals. -/
theorem get_buffer_eq (w : ℚ) :
    get_buffer_by_width w =
      if w ≤ 10 then 30 else if w ≤ 50 then 50 else if w ≤ 200 then 100
      else if w ≤ 600 then 200 else 500 := by
  simp only [get_buffer_by_width, APP_MARGEM, margem_lookup]

/-- _extract_area returns its argument in both branches. -/
theorem extract_area_eq {G : Type} (ops : GeoOps G) (g : G) (t : ℚ) :
    extract_area ops g t = g := by
  unfold extract_area
  split <;> rfl

/-! ## C1 and C4 -/

/-- C1: the buffer distance chosen by _get_buffer_by_width is
non-decreasing in the width and matches the rule table exactly,
including at the boundary widths 10, 10.01, 50, 50.01 and 600.01. -/
theorem C1_buffer_by_width :
    (∀ w₁ w₂ : ℚ, w₁ ≤ w₂ → get_buffer_by_width w₁ ≤ get_buffer_by_width w₂) ∧
    (∀ w : ℚ,
      (w ≤ 10 → get_buffer_by_width w = 30) ∧
      (10 < w → w ≤ 50 → get_buffer_by_width w = 50) ∧
      (50 < w → w ≤ 200 → get_buffer_by_width w = 100) ∧
      (200 < w → w ≤ 600 → get_buffer_by_width w = 200) ∧
      (600 < w → get_buffer_by_width w = 500)) ∧
    get_buffer_by_width 10 = 30 ∧ get_buffer_by_width (1001/100) = 50 ∧
    get_buffer_by_width 50 = 50 ∧ get_buffer_by_width (5001/100) = 100 ∧
    get_buffer_by_width (60001/100) = 500 := by
  refine ⟨?_, ?_, ?_, ?_, ?_, ?_, ?_⟩
  · intro w₁ w₂ h
    rw [get_buffer_eq, get_buffer_eq]
    split_ifs <;> linarith
  · intro w
    refine ⟨?_, ?_, ?_, ?_, ?_⟩ <;> intro h <;> try intro h2
    all_goals rw [get_buffer_eq]
    all_goals split_ifs <;> first | rfl | linarith
  all_goals rw [get_buffer_eq]
  all_goals norm_num

/-- Witness for C1 at concrete widths. -/
theorem C1_buffer_by_width_witness :
    get_buffer_by_width 3 ≤ get_buffer_by_width 700 ∧ get_buffer_by_width 25 = 50 :=
  ⟨C1_buffer_by_width.1 3 700 (by norm_num),
   (C1_buffer_by_width.2.1 25).2.1 (by norm_num) (by norm_num)⟩

/-- Percentage of a biome missing from the table defaults to 20
percent. -/
theorem biome_percent_unknown (bioma : String)
    (h1 : bioma ≠ "MATA_ATLANTICA") (h2 : bioma ≠ "CERRADO")
    (h3 : bioma ≠ "AMAZONIA") : biome_percent bioma = 20/100 := by
  have e1 : (("MATA_ATLANTICA" : String) == bioma) = false :=
    beq_eq_false_iff_ne.mpr (Ne.symm h1)
  have e2 : (("CERRADO" : String) == bioma) = false :=
    beq_eq_false_iff_ne.mpr (Ne.symm h2)
  have e3 : (("AMAZONIA" : String) == bioma) = false :=
    beq_eq_false_iff_ne.mpr (Ne.symm h3)
  simp [biome_percent, RESERVA_LEGAL_PERCENT, List.find?, e1, e2, e3]

/-- C4: the required reserve area is the metric parcel area times the
biome percentage: 20 percent for MATA_ATLANTICA and CERRADO, 80
percent for AMAZONIA, 20 percent for any unrecognized biome; on a
1000000 square meter (100 ha) parcel this gives 20, 20, 80 and 20
hectares respectively. -/
theorem C4_required_area : ∀ {G : Type} (ops : GeoOps G) (perimeter : G),
    (calculate_required_area ops perimeter "MATA_ATLANTICA"
        = ops.area perimeter / 10000 * (20/100) ∧
     calculate_required_area ops perimeter "CERRADO"
        = ops.area perimeter / 10000 * (20/100) ∧
     calculate_required_area ops perimeter "AMAZONIA"
        = ops.area perimeter / 10000 * (80/100)) ∧
    (∀ bioma : String, bioma ≠ "MATA_ATLANTICA" → bioma ≠ "CERRADO" →
      bioma ≠ "AMAZONIA" →
      calculate_required_area ops perimeter bioma
        = ops.area perimeter / 10000 * (20/100)) ∧
    (ops.area perimeter = 1000000 →
      calculate_required_area ops perimeter "MATA_ATLANTICA" = 20 ∧
      calculate_required_area ops perimeter "CERRADO" = 20 ∧
      calculate_required_area ops perimeter "AMAZONIA" = 80 ∧
      calculate_required_area ops perimeter "SEM_BIOMA" = 20) := by
  intro G ops perimeter
  have b1 : biome_percent "MATA_ATLANTICA" = 20/100 := by with_unfolding_all decide
  have b2 : biome_percent "CERRADO" = 20/100 := by with_unfolding_all decide
  have b3 : biome_percent "AMAZONIA" = 80/100 := by with_unfolding_all decide
  have b4 : biome_percent "SEM_BIOMA" = 20/100 := by with_unfolding_all decide
  refine ⟨⟨?_, ?_, ?_⟩, ?_, ?_⟩
  · rw [calculate_required_area, b1]
  · rw [calculate_required_area, b2]
  · rw [calculate_required_area, b3]
  · intro bioma h1 h2 h3
    rw [calculate_required_area, biome_percent_unknown bioma h1 h2 h3]
  · intro harea
    refine ⟨?_, ?_, ?_, ?_⟩ <;>
      rw [calculate_required_area, harea] <;>
      first
        | (rw [b1]; norm_num)
        | (rw [b2]; norm_num)
        | (rw [b3]; norm_num)
        | (rw [b4]; norm_num)

/-- Witness for C4 on a 100 ha parcel in the area-only model. -/
theorem C4_required_area_witness :
    calculate_required_area QOps 1000000 "AMAZONIA" = 80 ∧
    calculate_required_area QOps 1000000 "SEM_BIOMA" = 20 ∧
    calculate_required_area QOps 1000000 "XYZ"
      = QOps.area 1000000 / 10000 * (20/100) :=
  ⟨((C4_required_area QOps 1000000).2.2 rfl).2.2.1,
   ((C4_required_area QOps 1000000).2.2 rfl).2.2.2,
   (C4_required_area QOps 1000000).2.1 "XYZ" (by decide) (by decide) (by decide)⟩

/-! ## C2 and C3 -/

/-- The progressive-buffer loop returns the candidate of the first
step size that satisfies the requirement, and the whole available
area when none does. -/
theorem contigua_loop_eq_find {G : Type} (ops : GeoOps G) (u D : G) (req : ℚ)
    (l : List ℚ) :
    contigua_loop ops u D req l =
      match l.find? (fun b => decide (req ≤ ops.area (ops.inter (ops.buffer u b) D))) with
      | some b => ops.inter (ops.buffer u b) D
      | none => D := by
  induction l with
  | nil => rfl
  | cons b rest ih =>
    by_cases h : req ≤ ops.area (ops.inter (ops.buffer u b) D)
    · simp [contigua_loop, List.find?, h, extract_area_eq]
    · simp [contigua_loop, List.find?, h, ih]

/-- C2: _select_contigua_app tries the buffer radii 50, 100, 200,
500, 1000, 2000 in that order and returns the buffered-and-clipped
candidate of the first radius whose area meets the requirement; when
no protection zones are given, or no radius suffices, it returns the
entire available region. -/
theorem C2_select_contigua : ∀ {G : Type} (ops : GeoOps G) (disponivel : G)
    (app_gdf : List G) (required_m2 : ℚ),
    BUFFER_STEPS = [50, 100, 200, 500, 1000, 2000] ∧
    select_contigua_app ops disponivel app_gdf required_m2 =
      (if app_gdf.isEmpty then disponivel
       else
        match BUFFER_STEPS.find?
            (fun b => decide (required_m2
              ≤ ops.area (ops.inter (ops.buffer (unary_union ops app_gdf) b) disponivel))) with
        | some b => ops.inter (ops.buffer (unary_union ops app_gdf) b) disponivel
        | none => disponivel) := by
  intro G ops D app req
  refine ⟨rfl, ?_⟩
  unfold select_contigua_app
  by_cases h : app.isEmpty <;> simp [h, extract_area_eq, contigua_loop_eq_find]

/-- In the cell-set model the contiguous-area search always selects
inside the available region. -/
theorem contigua_subset (buf : Finset Cell → ℚ → Finset Cell) (D : Finset Cell)
    (app_gdf : List (Finset Cell)) (req : ℚ) :
    select_contigua_app (FOps buf) D app_gdf req ⊆ D := by
  unfold select_contigua_app
  by_cases h : app_gdf.isEmpty
  · simp [h, extract_area_eq]
  · simp only [h, Bool.false_eq_true, if_false]
    rw [contigua_loop_eq_find]
    cases hf : BUFFER_STEPS.find?
        (fun b => decide (req
          ≤ (FOps buf).area ((FOps buf).inter ((FOps buf).buffer (unary_union (FOps buf) app_gdf) b) D))) with
    | none => simp
    | some b =>
      simp only
      exact Finset.inter_subset_right

/-- _select_rl_area in the vegetation branch: a sufficient
vegetation intersection is returned as is, an insufficient one is
united with the contiguous-search complement over the available area
minus the vegetation. -/
theorem select_rl_eq {G : Type} (ops : GeoOps G) (D : G) (req : ℚ)
    (app veg : List G) (hveg : veg.isEmpty = false)
    (hne : ops.isEmpty (ops.inter (unary_union ops veg) D) = false) :
    select_rl_area ops D req app veg =
      if req ≤ ops.area (ops.inter (unary_union ops veg) D)
      then ops.inter (unary_union ops veg) D
      else ops.union2 (ops.inter (unary_union ops veg) D)
        (select_contigua_app ops (ops.diff D (ops.inter (unary_union ops veg) D)) app
          (req - ops.area (ops.inter (unary_union ops veg) D))) := by
  unfold select_rl_area
  simp only [hveg, Bool.false_eq_true, if_false, hne, extract_area_eq]

/-- C3: with native vegetation supplied and meeting the available
area, a sufficient vegetation intersection is selected as the whole
allocation (so the allocation is contained in it); an insufficient
one is taken entirely and the complement comes from the contiguous
search over the available area with the vegetation removed, hence
never overlaps the vegetation contribution. -/
theorem C3_native_vegetation_priority (buf : Finset Cell → ℚ → Finset Cell)
    (disponivel : Finset Cell) (required_m2 : ℚ)
    (app_gdf veg_gdf : List (Finset Cell))
    (hveg : veg_gdf.isEmpty = false)
    (hne : unary_union (FOps buf) veg_gdf ∩ disponivel ≠ ∅) :
    (required_m2 ≤ ((unary_union (FOps buf) veg_gdf ∩ disponivel).card : ℚ) →
       select_rl_area (FOps buf) disponivel required_m2 app_gdf veg_gdf
         ⊆ unary_union (FOps buf) veg_gdf ∩ disponivel) ∧
    (((unary_union (FOps buf) veg_gdf ∩ disponivel).card : ℚ) < required_m2 →
       select_rl_area (FOps buf) disponivel required_m2 app_gdf veg_gdf
           = (unary_union (FOps buf) veg_gdf ∩ disponivel) ∪
             select_contigua_app (FOps buf)
               (disponivel \ (unary_union (FOps buf) veg_gdf ∩ disponivel)) app_gdf
               (required_m2 - ((unary_union (FOps buf) veg_gdf ∩ disponivel).card : ℚ)) ∧
         Disjoint
           (select_contigua_app (FOps buf)
             (disponivel \ (unary_union (FOps buf) veg_gdf ∩ disponivel)) app_gdf
             (required_m2 - ((unary_union (FOps buf) veg_gdf ∩ disponivel).card : ℚ)))
           (unary_union (FOps buf) veg_gdf ∩ disponivel)) := by
  have hne2 : (FOps buf).isEmpty
      ((FOps buf).inter (unary_union (FOps buf) veg_gdf) disponivel) = false :=
    decide_eq_false hne
  have e := select_rl_eq (FOps buf) disponivel required_m2 app_gdf veg_gdf hveg hne2
  constructor
  · intro hs
    have hs2 : required_m2
        ≤ (FOps buf).area ((FOps buf).inter (unary_union (FOps buf) veg_gdf) disponivel) := hs
    rw [e, if_pos hs2]
    exact Finset.Subset.refl _
  · intro hi
    have hn : ¬ required_m2
        ≤ (FOps buf).area ((FOps buf).inter (unary_union (FOps buf) veg_gdf) disponivel) :=
      not_le.mpr hi
    refine ⟨?_, ?_⟩
    · rw [e, if_neg hn]
      rfl
    · exact Finset.disjoint_of_subset_left
        (contigua_subset buf _ app_gdf _) Finset.sdiff_disjoint

/-- Witness for C3: one available cell covered by vegetation,
requirement one square meter. -/
theorem C3_native_vegetation_priority_witness :
    select_rl_area (FOps bufId) {((0 : ℕ), (0 : ℕ))} 1 [] [{((0 : ℕ), (0 : ℕ))}]
      ⊆ unary_union (FOps bufId) [{((0 : ℕ), (0 : ℕ))}] ∩ {((0 : ℕ), (0 : ℕ))} :=
  (C3_native_vegetation_priority bufId {((0 : ℕ), (0 : ℕ))} 1 [] [{((0 : ℕ), (0 : ℕ))}]
      (by decide) (by simp [unary_union])).1 (by norm_num [unary_union])

/-! ## C5, C6 and C10 -/

/-- The returned geometry is the metric selection after the
MultiPolygon collapse. -/
theorem suggest_geometry_eq {G : Type} (ops : GeoOps G) (per : G) (bioma : String)
    (app_gdf veg_gdf : List G) :
    (suggest_location ops per bioma app_gdf veg_gdf).geometry
      = utm_to_wgs84_rl ops (rl_metric ops per bioma app_gdf veg_gdf) := rfl

/-- The reported area comes from the whole metric selection. -/
theorem suggest_num_area_eq {G : Type} (ops : GeoOps G) (per : G) (bioma : String)
    (app_gdf veg_gdf : List G) :
    (suggest_location ops per bioma app_gdf veg_gdf).num_area
      = round4 (ops.area (rl_metric ops per bioma app_gdf veg_gdf) / 10000) := rfl

/-- The completeness status as the 95 percent test on the whole
metric selection. -/
theorem suggest_condic_eq {G : Type} (ops : GeoOps G) (per : G) (bioma : String)
    (app_gdf veg_gdf : List G) :
    (suggest_location ops per bioma app_gdf veg_gdf).des_condic =
      if calculate_required_area ops per bioma * (95/100)
          ≤ ops.area (rl_metric ops per bioma app_gdf veg_gdf) / 10000
      then "PROPOSTA" else "PROPOSTA_INCOMPLETA" := rfl

/-- C5: the status is PROPOSTA exactly when the achieved area reaches
95 percent of the requirement, PROPOSTA_INCOMPLETA exactly when it
falls below; the boundary is non-strict, witnessed by a run achieving
exactly 95 percent that is marked PROPOSTA. -/
theorem C5_completeness_threshold :
    (∀ {G : Type} (ops : GeoOps G) (perimeter : G) (bioma : String)
        (app_gdf veg_gdf : List G),
      ((suggest_location ops perimeter bioma app_gdf veg_gdf).des_condic = "PROPOSTA" ↔
        calculate_required_area ops perimeter bioma * (95/100)
          ≤ ops.area (rl_metric ops perimeter bioma app_gdf veg_gdf) / 10000) ∧
      ((suggest_location ops perimeter bioma app_gdf veg_gdf).des_condic
          = "PROPOSTA_INCOMPLETA" ↔
        ops.area (rl_metric ops perimeter bioma app_gdf veg_gdf) / 10000
          < calculate_required_area ops perimeter bioma * (95/100))) ∧
    (QOps.area (rl_metric QOps (1000000 : ℚ) "AMAZONIA" [240000] []) / 10000
       = calculate_required_area QOps (1000000 : ℚ) "AMAZONIA" * (95/100) ∧
     (suggest_location QOps (1000000 : ℚ) "AMAZONIA" [240000] []).des_condic
       = "PROPOSTA") := by
  refine ⟨?_, by with_unfolding_all decide, by with_unfolding_all decide⟩
  intro G ops perimeter bioma app_gdf veg_gdf
  constructor
  · rw [suggest_condic_eq]
    split_ifs with h
    · exact ⟨fun _ => h, fun _ => rfl⟩
    · exact ⟨fun hx => absurd hx (by decide), fun hx => absurd hx h⟩
  · rw [suggest_condic_eq]
    split_ifs with h
    · exact ⟨fun hx => absurd hx (by decide), fun hx => absurd hx (not_lt.mpr h)⟩
    · exact ⟨fun _ => not_le.mp h, fun _ => rfl⟩

/-- The loop body on an empty available region with requirement zero
selects the empty intersection at the first step. -/
theorem contigua_loop_zero (buf : Finset Cell → ℚ → Finset Cell)
    (u : Finset Cell) (b : ℚ) (rest : List ℚ) :
    contigua_loop (FOps buf) u ∅ 0 (b :: rest) = ∅ := by
  have h0 : (0 : ℚ) ≤ (FOps buf).area ((FOps buf).inter ((FOps buf).buffer u b) ∅) :=
    Nat.cast_nonneg _
  simp only [contigua_loop]
  rw [if_pos h0, extract_area_eq]
  exact Finset.inter_empty _

/-- The contiguous search on an empty region with requirement zero
returns the empty set. -/
theorem select_contigua_zero (buf : Finset Cell → ℚ → Finset Cell)
    (app_gdf : List (Finset Cell)) :
    select_contigua_app (FOps buf) ∅ app_gdf 0 = ∅ := by
  unfold select_contigua_app
  by_cases h : app_gdf.isEmpty
  · rw [if_pos h, extract_area_eq]
  · rw [if_neg h]
    exact contigua_loop_zero buf _ 50 [100, 200, 500, 1000, 2000]

/-- _select_rl_area falls through to the contiguous search when the
vegetation intersection with the available area is empty. -/
theorem select_rl_veg_empty {G : Type} (ops : GeoOps G) (D : G) (req : ℚ)
    (app veg : List G)
    (hc : ops.isEmpty (ops.inter (unary_union ops veg) D) = true) :
    select_rl_area ops D req app veg = select_contigua_app ops D app req := by
  unfold select_rl_area
  by_cases h : veg.isEmpty
  · rw [if_pos h]
  · simp only [h, Bool.false_eq_true, if_false, hc, if_true]

/-- The metric selection on an empty parcel with requirement zero is
empty. -/
theorem select_rl_zero (buf : Finset Cell → ℚ → Finset Cell)
    (app_gdf veg_gdf : List (Finset Cell)) :
    select_rl_area (FOps buf) ∅ 0 app_gdf veg_gdf = ∅ := by
  have hc : (FOps buf).isEmpty
      ((FOps buf).inter (unary_union (FOps buf) veg_gdf) (∅ : Finset Cell)) = true :=
    decide_eq_true (Finset.inter_empty _)
  rw [select_rl_veg_empty (FOps buf) ∅ 0 app_gdf veg_gdf hc]
  exact select_contigua_zero buf app_gdf

/-- C6 (amended): a zero-area parcel, hence a required area of zero,
yields an empty allocation geometry without crashing, but its status
is PROPOSTA (complete), because the 95 percent test 0 at least
0.95 times 0 passes. -/
theorem C6_zero_required (buf : Finset Cell → ℚ → Finset Cell) (bioma : String)
    (app_gdf veg_gdf : List (Finset Cell)) :
    calculate_required_area (FOps buf) (∅ : Finset Cell) bioma = 0 ∧
    (suggest_location (FOps buf) (∅ : Finset Cell) bioma app_gdf veg_gdf).geometry = ∅ ∧
    (suggest_location (FOps buf) (∅ : Finset Cell) bioma app_gdf veg_gdf).des_condic
      = "PROPOSTA" := by
  have hreq : calculate_required_area (FOps buf) (∅ : Finset Cell) bioma = 0 := by
    unfold calculate_required_area
    show (((∅ : Finset Cell).card : ℚ) / 10000) * biome_percent bioma = 0
    simp
  have hdisp : calculate_available_area (FOps buf) (∅ : Finset Cell) app_gdf = ∅ := by
    unfold calculate_available_area
    by_cases h : app_gdf.isEmpty
    · rw [if_pos h]
    · rw [if_neg h]
      have hd : (FOps buf).diff (∅ : Finset Cell) (unary_union (FOps buf) app_gdf) = ∅ :=
        Finset.empty_sdiff _
      have hm : (FOps buf).isMulti (∅ : Finset Cell) = false := rfl
      simp only [hd, hm, Bool.false_eq_true, if_false]
  have hrl : rl_metric (FOps buf) (∅ : Finset Cell) bioma app_gdf veg_gdf = ∅ := by
    unfold rl_metric
    rw [hdisp, hreq, zero_mul]
    exact select_rl_zero buf app_gdf veg_gdf
  have hda : (FOps buf).area (∅ : Finset Cell) = 0 := by
    show ((∅ : Finset Cell).card : ℚ) = 0
    simp
  refine ⟨hreq, ?_, ?_⟩
  · rw [suggest_geometry_eq, hrl]
    rfl
  · rw [suggest_condic_eq, hrl, hreq, hda]
    rw [if_pos (by norm_num)]

/-- C6 counterexample: on a run with required area zero the claim
says the status is PROPOSTA_INCOMPLETA, but the code marks it
PROPOSTA. -/
theorem C6_zero_required_counterexample :
    calculate_required_area (FOps bufId) (∅ : Finset Cell) "MATA_ATLANTICA" = 0 ∧
    (suggest_location (FOps bufId) (∅ : Finset Cell) "MATA_ATLANTICA" [] []).geometry = ∅ ∧
    (suggest_location (FOps bufId) (∅ : Finset Cell) "MATA_ATLANTICA" [] []).des_condic
      ≠ "PROPOSTA_INCOMPLETA" := by
  refine ⟨by with_unfolding_all decide, ?_, by with_unfolding_all decide⟩
  exact Finset.card_eq_zero.mp (by with_unfolding_all decide)

/-- C10: the record geometry is the largest part of the metric
MultiPolygon while the reported area and status come from the whole
MultiPolygon; concretely, a two-part selection yields a returned
polygon whose area is below the reported num_area and below 95
percent of the requirement even though the status is PROPOSTA. -/
theorem C10_multipart_collapse :
    (∀ {G : Type} (ops : GeoOps G) (perimeter : G) (bioma : String)
        (app_gdf veg_gdf : List G),
      (suggest_location ops perimeter bioma app_gdf veg_gdf).geometry
          = utm_to_wgs84_rl ops (rl_metric ops perimeter bioma app_gdf veg_gdf) ∧
      (suggest_location ops perimeter bioma app_gdf veg_gdf).num_area
          = round4 (ops.area (rl_metric ops perimeter bioma app_gdf veg_gdf) / 10000) ∧
      ((suggest_location ops perimeter bioma app_gdf veg_gdf).des_condic = "PROPOSTA" ↔
        calculate_required_area ops perimeter bioma * (95/100)
          ≤ ops.area (rl_metric ops perimeter bioma app_gdf veg_gdf) / 10000)) ∧
    ((FOps bufId).isMulti (rl_metric (FOps bufId) perC10 "AMAZONIA" [] []) = true ∧
     (FOps bufId).area (suggest_location (FOps bufId) perC10 "AMAZONIA" [] []).geometry / 10000
        < (suggest_location (FOps bufId) perC10 "AMAZONIA" [] []).num_area ∧
     (suggest_location (FOps bufId) perC10 "AMAZONIA" [] []).des_condic = "PROPOSTA" ∧
     (FOps bufId).area (suggest_location (FOps bufId) perC10 "AMAZONIA" [] []).geometry / 10000
        < (suggest_location (FOps bufId) perC10 "AMAZONIA" [] []).area_exigida_ha
          * (95/100)) := by
  refine ⟨?_, by with_unfolding_all decide, by with_unfolding_all decide,
    by with_unfolding_all decide, by with_unfolding_all decide⟩
  intro G ops perimeter bioma app_gdf veg_gdf
  refine ⟨rfl, rfl, ?_⟩
  rw [suggest_condic_eq]
  split_ifs with h
  · exact ⟨fun _ => h, fun _ => rfl⟩
  · exact ⟨fun hx => absurd hx (by decide), fun hx => absurd hx h⟩

/-! ## C7 -/

/-- A pair drawn from enumFrom carries an index at least the start,
and looking that index up in the list recovers the element. -/
theorem mem_enumFrom_get {α : Type} : ∀ (l : List α) (s : ℕ) (p : ℕ × α),
    p ∈ List.enumFrom s l → s ≤ p.fst ∧ l.get? (p.fst - s) = some p.snd := by
  intro l
  induction l with
  | nil => intro s p h; cases h
  | cons a as ih =>
    intro s p h
    rcases List.mem_cons.mp h with h | h
    · subst h
      exact ⟨le_refl s, by simp⟩
    · obtain ⟨h1, h2⟩ := ih (s + 1) p h
      refine ⟨le_trans (Nat.le_succ s) h1, ?_⟩
      have hstep : p.fst - s = (p.fst - (s + 1)) + 1 := by omega
      rw [hstep]
      simpa using h2

/-- A zone in the output of an indexed filterMap pass comes from some
input row at its positional index. -/
theorem emitted_from_enum {α β : Type} (f : ℕ → α → Option β) (l : List α) (z : β)
    (hz : z ∈ l.enum.filterMap (fun p => f p.fst p.snd)) :
    ∃ i row, l.get? i = some row ∧ f i row = some z := by
  obtain ⟨p, hp, hfz⟩ := List.mem_filterMap.mp hz
  obtain ⟨-, h2⟩ := mem_enumFrom_get l 0 p hp
  exact ⟨p.fst, p.snd, by simpa using h2, hfz⟩

/-- C7: every emitted lake zone uses the 50 meter buffer when the
lake area is at most 20 ha and the 100 meter buffer above 20 ha, its
geometry is the buffered footprint minus the lake footprint
intersected with the parcel, and it never meets the lake itself. -/
theorem C7_lago_zone (buf : Finset Cell → ℚ → Finset Cell)
    (perimeter : Finset Cell) (lagos : List (LakeRow (Finset Cell)))
    (z : AppRecord (Finset Cell))
    (hz : z ∈ calculate_app_lago (FOps buf) perimeter lagos) :
    ∃ i row, lagos.get? i = some row ∧ lago_zone (FOps buf) perimeter i row = some z ∧
      ((row.area_ha.getD ((row.geometry.card : ℚ) / 10000) ≤ 20 → z.buffer_m = 50) ∧
       (20 < row.area_ha.getD ((row.geometry.card : ℚ) / 10000) → z.buffer_m = 100)) ∧
      z.geometry = (buf row.geometry z.buffer_m \ row.geometry) ∩ perimeter ∧
      z.geometry ∩ row.geometry = ∅ := by
  obtain ⟨i, row, hget, hrow⟩ := emitted_from_enum _ lagos z hz
  refine ⟨i, row, hget, hrow, ?_⟩
  unfold lago_zone at hrow
  by_cases he : (FOps buf).isEmpty ((FOps buf).inter
      ((FOps buf).diff
        ((FOps buf).buffer row.geometry
          (if 20 < row.area_ha.getD ((FOps buf).area row.geometry / 10000)
           then APP_LAGO_GRANDE_M else APP_LAGO_PEQUENO_M))
        row.geometry)
      perimeter)
  · rw [if_pos he] at hrow
    cases hrow
  · rw [if_neg he] at hrow
    obtain rfl := Option.some.inj hrow.symm
    have harea : (FOps buf).area row.geometry / 10000
        = (row.geometry.card : ℚ) / 10000 := rfl
    constructor
    · constructor
      · intro hle
        have : ¬ 20 < row.area_ha.getD ((FOps buf).area row.geometry / 10000) := by
          rw [harea]; exact not_lt.mpr hle
        show (if 20 < row.area_ha.getD ((FOps buf).area row.geometry / 10000)
              then APP_LAGO_GRANDE_M else APP_LAGO_PEQUENO_M) = 50
        rw [if_neg this]
        rfl
      · intro hgt
        have : 20 < row.area_ha.getD ((FOps buf).area row.geometry / 10000) := by
          rw [harea]; exact hgt
        show (if 20 < row.area_ha.getD ((FOps buf).area row.geometry / 10000)
              then APP_LAGO_GRANDE_M else APP_LAGO_PEQUENO_M) = 100
        rw [if_pos this]
        rfl
    · constructor
      · rfl
      · show ((buf row.geometry _ \ row.geometry) ∩ perimeter) ∩ row.geometry = ∅
        ext c
        simp only [Finset.mem_inter, Finset.mem_sdiff, Finset.not_mem_empty, iff_false]
        tauto

/-- Witness for C7: a one-cell lake whose bufW buffer reaches the
parcel cell (0, 1). -/
theorem C7_lago_zone_witness :
    ∃ i row,
      ([(⟨{((0 : ℕ), (0 : ℕ))}, none⟩ : LakeRow (Finset Cell))]).get? i = some row ∧
      lago_zone (FOps bufW) {((0 : ℕ), (1 : ℕ))} i row = some zC7 ∧
      ((row.area_ha.getD ((row.geometry.card : ℚ) / 10000) ≤ 20 → zC7.buffer_m = 50) ∧
       (20 < row.area_ha.getD ((row.geometry.card : ℚ) / 10000) → zC7.buffer_m = 100)) ∧
      zC7.geometry = (bufW row.geometry zC7.buffer_m \ row.geometry) ∩ {((0 : ℕ), (1 : ℕ))} ∧
      zC7.geometry ∩ row.geometry = ∅ :=
  C7_lago_zone bufW {((0 : ℕ), (1 : ℕ))} [⟨{((0 : ℕ), (0 : ℕ))}, none⟩] zC7
    (by
      have he : calculate_app_lago (FOps bufW) {((0 : ℕ), (1 : ℕ))}
          [⟨{((0 : ℕ), (0 : ℕ))}, none⟩] = [zC7] := by with_unfolding_all rfl
      rw [he]
      exact List.mem_singleton.mpr rfl)

/-! ## C8 -/

/-- calculate_app_margem on a single watercourse is the emission of
its single pass. -/
theorem calc_margem_single {G : Type} (ops : GeoOps G) (per : G) (r : RiverRow G) :
    calculate_app_margem ops per [r] =
      match margem_zone ops per 0 r with
      | some z => [z]
      | none => [] := by
  cases h : margem_zone ops per 0 r <;>
    simp [calculate_app_margem, List.enum, List.enumFrom, h]

/-- A watercourse emits nothing exactly when its buffered geometry
misses the perimeter. -/
theorem margem_zone_none_iff {G : Type} (ops : GeoOps G) (per : G) (idx : ℕ)
    (r : RiverRow G) :
    margem_zone ops per idx r = none ↔
      ops.isEmpty (ops.inter
        (ops.buffer r.geometry (get_buffer_by_width (r.largura_m.getD 5))) per) = true := by
  simp only [margem_zone]
  split_ifs with h
  · simp [h]
  · simp [h]

/-- An emitted margin zone's geometry is the buffered watercourse
clipped to the perimeter, and is non-empty. -/
theorem margem_zone_geometry {G : Type} (ops : GeoOps G) (per : G) (idx : ℕ)
    (r : RiverRow G) (z : AppRecord G)
    (h : margem_zone ops per idx r = some z) :
    z.geometry = ops.inter
        (ops.buffer r.geometry (get_buffer_by_width (r.largura_m.getD 5))) per ∧
      ops.isEmpty z.geometry = false := by
  simp only [margem_zone] at h
  split_ifs at h with hc
  obtain rfl := Option.some.inj h
  exact ⟨rfl, by rwa [Bool.not_eq_true] at hc⟩

/-- C8: a watercourse entirely outside the parcel emits a non-empty
margin zone exactly when its distance to the parcel is below the
buffer width for its width class (stated with squared distances: some
pair of points is closer than the buffer radius); when every pair is
at least the buffer radius apart, the zone collection is empty.  The
buffer is taken around the watercourse first, then intersected with
the parcel. -/
theorem C8_margem_outside (l m : List Q2) (w : ℚ)
    (hl : l ≠ []) (hm : m ≠ []) (hout : ∀ p ∈ m, p ∉ l) :
    ((∃ p ∈ m, ∃ q ∈ l, sqDist p q < get_buffer_by_width w ^ 2) →
       calculate_app_margem POps (PGeo.cloud m) [⟨PGeo.cloud l, some w⟩] ≠ [] ∧
       ∀ z ∈ calculate_app_margem POps (PGeo.cloud m) [⟨PGeo.cloud l, some w⟩],
         pIsEmpty z.geometry = false) ∧
    ((∀ p ∈ m, ∀ q ∈ l, get_buffer_by_width w ^ 2 ≤ sqDist p q) →
       calculate_app_margem POps (PGeo.cloud m) [⟨PGeo.cloud l, some w⟩] = []) := by
  have hiff : (∃ p ∈ m, ∃ q ∈ l, sqDist p q < get_buffer_by_width w ^ 2) ↔
      m.filter (fun p => (PGeo.disc l (get_buffer_by_width w)).memB p) ≠ [] := by
    constructor
    · rintro ⟨p, hp, q, hq, hlt⟩ hF
      have hnp := List.filter_eq_nil_iff.mp hF p hp
      apply hnp
      show List.any l (fun q => decide (sqDist p q < get_buffer_by_width w ^ 2)) = true
      rw [List.any_eq_true]
      exact ⟨q, hq, decide_eq_true hlt⟩
    · intro hF
      obtain ⟨p, hpF⟩ := List.exists_mem_of_ne_nil _ hF
      obtain ⟨hp, hpred⟩ := List.mem_filter.mp hpF
      have hpred2 : List.any l (fun q => decide (sqDist p q < get_buffer_by_width w ^ 2))
          = true := hpred
      obtain ⟨q, hq, hd⟩ := List.any_eq_true.mp hpred2
      exact ⟨p, hp, q, hq, of_decide_eq_true hd⟩
  constructor
  · intro hex
    have hFne := hiff.mp hex
    have hnn : margem_zone POps (PGeo.cloud m) 0 ⟨PGeo.cloud l, some w⟩ ≠ none := by
      intro hcon
      have h2 : (m.filter (fun p => (PGeo.disc l (get_buffer_by_width w)).memB p)).isEmpty
          = true :=
        (margem_zone_none_iff POps (PGeo.cloud m) 0 ⟨PGeo.cloud l, some w⟩).mp hcon
      cases hF : m.filter (fun p => (PGeo.disc l (get_buffer_by_width w)).memB p) with
      | nil => exact hFne hF
      | cons a as => rw [hF] at h2; cases h2
    obtain ⟨z, hz⟩ := Option.ne_none_iff_exists'.mp hnn
    have hres : calculate_app_margem POps (PGeo.cloud m) [⟨PGeo.cloud l, some w⟩] = [z] := by
      rw [calc_margem_single, hz]
    constructor
    · rw [hres]
      simp
    · intro z' hz'
      rw [hres] at hz'
      obtain rfl := List.mem_singleton.mp hz'
      exact (margem_zone_geometry POps (PGeo.cloud m) 0 ⟨PGeo.cloud l, some w⟩ z' hz).2
  · intro hall
    have hF : m.filter (fun p => (PGeo.disc l (get_buffer_by_width w)).memB p) = [] := by
      apply List.filter_eq_nil_iff.mpr
      intro p hp hmem
      have hmem2 : List.any l (fun q => decide (sqDist p q < get_buffer_by_width w ^ 2))
          = true := hmem
      obtain ⟨q, hq, hd⟩ := List.any_eq_true.mp hmem2
      exact absurd (of_decide_eq_true hd) (not_lt.mpr (hall p hp q hq))
    have hnone : margem_zone POps (PGeo.cloud m) 0 ⟨PGeo.cloud l, some w⟩ = none :=
      (margem_zone_none_iff POps (PGeo.cloud m) 0 ⟨PGeo.cloud l, some w⟩).mpr
        (show (m.filter (fun p => (PGeo.disc l (get_buffer_by_width w)).memB p)).isEmpty
            = true by rw [hF]; rfl)
    rw [calc_margem_single, hnone]

/-- Witness for C8: a point watercourse ten meters from a point of
the parcel, width 5, buffer 30; the zone is emitted. -/
theorem C8_margem_outside_witness :
    calculate_app_margem POps (PGeo.cloud [((10 : ℚ), (0 : ℚ))])
        [⟨PGeo.cloud [((0 : ℚ), (0 : ℚ))], some 5⟩] ≠ [] :=
  ((C8_margem_outside [((0 : ℚ), (0 : ℚ))] [((10 : ℚ), (0 : ℚ))] 5
      (by decide) (by decide) (by decide)).1
    ⟨((10 : ℚ), (0 : ℚ)), by decide, ((0 : ℚ), (0 : ℚ)), by decide,
      by with_unfolding_all decide⟩).1

/-! ## C9 -/

/-- Decimal digits produced by digitsLE are below ten. -/
theorem digitsLE_lt_ten : ∀ (fuel n : ℕ), ∀ d ∈ digitsLE fuel n, d < 10 := by
  intro fuel
  induction fuel with
  | zero => intro n d h; simp [digitsLE] at h
  | succ f ih =>
    intro n d h
    cases n with
    | zero => simp [digitsLE] at h
    | succ m =>
      rw [show digitsLE (f + 1) (m + 1) = ((m + 1) % 10) :: digitsLE f ((m + 1) / 10)
        from rfl] at h
      rcases List.mem_cons.mp h with h | h
      · subst h
        exact Nat.mod_lt _ (by norm_num)
      · exact ih _ d h

/-- digitsLE decodes back to its input when the fuel suffices. -/
theorem ofDigits_digitsLE : ∀ (fuel n : ℕ), n ≤ fuel →
    Nat.ofDigits 10 (digitsLE fuel n) = n := by
  intro fuel
  induction fuel with
  | zero =>
    intro n h
    have h0 : n = 0 := Nat.le_zero.mp h
    subst h0
    simp [digitsLE, Nat.ofDigits_nil]
  | succ f ih =>
    intro n h
    cases n with
    | zero => simp [digitsLE, Nat.ofDigits_nil]
    | succ m =>
      rw [show digitsLE (f + 1) (m + 1) = ((m + 1) % 10) :: digitsLE f ((m + 1) / 10)
        from rfl]
      rw [Nat.ofDigits_cons]
      have hle : (m + 1) / 10 ≤ f := by
        have hlt : (m + 1) / 10 < m + 1 := Nat.div_lt_self (Nat.succ_pos m) (by norm_num)
        omega
      rw [ih _ hle]
      omega

/-- Decoding a run of zero digits gives zero. -/
theorem ofDigits_replicate_zero : ∀ k : ℕ, Nat.ofDigits 10 (List.replicate k 0) = 0 := by
  intro k
  induction k with
  | zero => simp [Nat.ofDigits_nil]
  | succ j ih => simp [List.replicate, Nat.ofDigits_cons, ih]

/-- The padded digit list decodes back to the number. -/
theorem decode_pyFmt03 (n : ℕ) : Nat.ofDigits 10 (pyFmt03 n).reverse = n := by
  unfold pyFmt03 decDigits
  rw [List.reverse_append, List.reverse_reverse, List.reverse_replicate]
  rw [Nat.ofDigits_append, ofDigits_digitsLE n n le_rfl, ofDigits_replicate_zero]
  simp

/-- Zero-padded decimal digit lists are injective. -/
theorem pyFmt03_inj {m n : ℕ} (h : pyFmt03 m = pyFmt03 n) : m = n := by
  have hm := decode_pyFmt03 m
  rw [h, decode_pyFmt03] at hm
  exact hm.symm

/-- All entries of the padded digit list are decimal digits. -/
theorem pyFmt03_lt_ten (n : ℕ) : ∀ d ∈ pyFmt03 n, d < 10 := by
  intro d h
  unfold pyFmt03 decDigits at h
  rcases List.mem_append.mp h with h | h
  · rw [List.eq_of_mem_replicate h]
    norm_num
  · exact digitsLE_lt_ten n n d (List.mem_reverse.mp h)

/-- undigit inverts Nat.digitChar on decimal digits. -/
theorem undigit_digitChar : ∀ d : ℕ, d < 10 → undigit (Nat.digitChar d) = d := by decide

/-- The Python 03d format is injective. -/
theorem fmt03_inj : ∀ {m n : ℕ}, fmt03 m = fmt03 n → m = n := by
  intro m n h
  have h2 : (pyFmt03 m).map Nat.digitChar = (pyFmt03 n).map Nat.digitChar := by
    have h3 := congrArg String.data h
    simpa [fmt03] using h3
  apply pyFmt03_inj
  have hm : ∀ k : ℕ, ((pyFmt03 k).map Nat.digitChar).map undigit = pyFmt03 k := by
    intro k
    rw [List.map_map]
    have hpt : ∀ d ∈ pyFmt03 k, (undigit ∘ Nat.digitChar) d = id d := fun d hd =>
      undigit_digitChar d (pyFmt03_lt_ten k d hd)
    rw [List.map_congr_left hpt, List.map_id]
  rw [← hm m, ← hm n, h2]

/-- Appending strings appends their character data. -/
theorem string_data_append : ∀ (a b : String), (a ++ b).data = a.data ++ b.data := by
  intro a b
  cases a
  cases b
  rfl

/-- A fixed tag followed by a 03d-formatted number determines the
number. -/
theorem code_append_inj (tag : String) : ∀ {i j : ℕ},
    tag ++ fmt03 i = tag ++ fmt03 j → i = j := by
  intro i j h
  have hd := congrArg String.data h
  rw [string_data_append, string_data_append] at hd
  have h2 : (fmt03 i).data = (fmt03 j).data := List.append_cancel_left hd
  exact fmt03_inj (String.ext h2)

/-- The code of an emitted river-margin zone is the tag plus the
input position plus one. -/
theorem margem_zone_cod {G : Type} (ops : GeoOps G) (per : G) (i : ℕ) (r : RiverRow G)
    (z : AppRecord G) (h : margem_zone ops per i r = some z) :
    z.cod_app = "APP_MARGEM_" ++ fmt03 (i + 1) := by
  simp only [margem_zone] at h
  split_ifs at h
  obtain rfl := Option.some.inj h
  rfl

/-- The code of an emitted spring zone is the tag plus the input
position plus one. -/
theorem nascente_zone_cod {G : Type} (ops : GeoOps G) (per : G) (i : ℕ) (r : NascRow G)
    (z : AppRecord G) (h : nascente_zone ops per i r = some z) :
    z.cod_app = "APP_NASC_" ++ fmt03 (i + 1) := by
  simp only [nascente_zone] at h
  split_ifs at h
  obtain rfl := Option.some.inj h
  rfl

/-- The code of an emitted lake zone is the tag plus the input
position plus one. -/
theorem lago_zone_cod {G : Type} (ops : GeoOps G) (per : G) (i : ℕ) (r : LakeRow G)
    (z : AppRecord G) (h : lago_zone ops per i r = some z) :
    z.cod_app = "APP_LAGO_" ++ fmt03 (i + 1) := by
  simp only [lago_zone] at h
  split_ifs at h <;> (obtain rfl := Option.some.inj h; rfl)

/-- Emitted codes over an enumerated pass are tag-coded with indices
at least the start, and pairwise distinct. -/
theorem codes_aux {α β : Type} (f : ℕ → α → Option β) (cod : β → String) (tag : String)
    (hcod : ∀ i a b, f i a = some b → cod b = tag ++ fmt03 (i + 1)) :
    ∀ (l : List α) (s : ℕ),
      (∀ c ∈ ((List.enumFrom s l).filterMap (fun p => f p.fst p.snd)).map cod,
        ∃ i, s ≤ i ∧ c = tag ++ fmt03 (i + 1)) ∧
      (((List.enumFrom s l).filterMap (fun p => f p.fst p.snd)).map cod).Nodup := by
  intro l
  induction l with
  | nil =>
    intro s
    exact ⟨fun c hc => absurd hc (by simp), by simp⟩
  | cons a as ih =>
    intro s
    rw [show List.enumFrom s (a :: as) = (s, a) :: List.enumFrom (s + 1) as from rfl]
    rw [List.filterMap_cons]
    cases hfa : f s a with
    | none =>
      simp only
      refine ⟨fun c hc => ?_, (ih (s + 1)).2⟩
      obtain ⟨i, hi, he⟩ := (ih (s + 1)).1 c hc
      exact ⟨i, by omega, he⟩
    | some b =>
      simp only [List.map_cons]
      constructor
      · intro c hc
        rcases List.mem_cons.mp hc with hc | hc
        · exact ⟨s, le_rfl, by rw [hc, hcod s a b hfa]⟩
        · obtain ⟨i, hi, he⟩ := (ih (s + 1)).1 c hc
          exact ⟨i, by omega, he⟩
      · rw [List.nodup_cons]
        refine ⟨?_, (ih (s + 1)).2⟩
        intro hmem
        obtain ⟨i, hi, he⟩ := (ih (s + 1)).1 _ hmem
        rw [hcod s a b hfa] at he
        have hij := code_append_inj tag he
        omega

/-- Codes emitted by an indexed pass are pairwise distinct. -/
theorem codes_nodup {α β : Type} (f : ℕ → α → Option β) (cod : β → String) (tag : String)
    (hcod : ∀ i a b, f i a = some b → cod b = tag ++ fmt03 (i + 1)) (l : List α) :
    ((l.enum.filterMap (fun p => f p.fst p.snd)).map cod).Nodup :=
  (codes_aux f cod tag hcod l 0).2

/-- C9 (amended): every emitted zone of each classification carries
the classification tag plus the 03d-padded input position plus one
(not the emitted position), so codes are unique within a
classification but need not be consecutive over the emitted zones. -/
theorem C9_zone_codes : ∀ {G : Type} (ops : GeoOps G) (perimeter : G)
    (rivers : List (RiverRow G)) (nascentes : List (NascRow G))
    (lagos : List (LakeRow G)),
    (∀ z ∈ calculate_app_margem ops perimeter rivers,
      ∃ i row, rivers.get? i = some row ∧ margem_zone ops perimeter i row = some z ∧
        z.cod_app = "APP_MARGEM_" ++ fmt03 (i + 1)) ∧
    (∀ z ∈ calculate_app_nascente ops perimeter nascentes,
      ∃ i row, nascentes.get? i = some row ∧ nascente_zone ops perimeter i row = some z ∧
        z.cod_app = "APP_NASC_" ++ fmt03 (i + 1)) ∧
    (∀ z ∈ calculate_app_lago ops perimeter lagos,
      ∃ i row, lagos.get? i = some row ∧ lago_zone ops perimeter i row = some z ∧
        z.cod_app = "APP_LAGO_" ++ fmt03 (i + 1)) ∧
    ((calculate_app_margem ops perimeter rivers).map (fun z => z.cod_app)).Nodup ∧
    ((calculate_app_nascente ops perimeter nascentes).map (fun z => z.cod_app)).Nodup ∧
    ((calculate_app_lago ops perimeter lagos).map (fun z => z.cod_app)).Nodup := by
  intro G ops per rivers nascentes lagos
  refine ⟨?_, ?_, ?_, ?_, ?_, ?_⟩
  · intro z hz
    obtain ⟨i, row, hget, hrow⟩ := emitted_from_enum _ rivers z hz
    exact ⟨i, row, hget, hrow, margem_zone_cod ops per i row z hrow⟩
  · intro z hz
    obtain ⟨i, row, hget, hrow⟩ := emitted_from_enum _ nascentes z hz
    exact ⟨i, row, hget, hrow, nascente_zone_cod ops per i row z hrow⟩
  · intro z hz
    obtain ⟨i, row, hget, hrow⟩ := emitted_from_enum _ lagos z hz
    exact ⟨i, row, hget, hrow, lago_zone_cod ops per i row z hrow⟩
  · exact codes_nodup _ _ "APP_MARGEM_"
      (fun i a b h => margem_zone_cod ops per i a b h) rivers
  · exact codes_nodup _ _ "APP_NASC_"
      (fun i a b h => nascente_zone_cod ops per i a b h) nascentes
  · exact codes_nodup _ _ "APP_LAGO_"
      (fun i a b h => lago_zone_cod ops per i a b h) lagos

/-- C9 counterexample: two rivers, the first away from the parcel,
the second inside; the single emitted zone is coded APP_MARGEM_002,
so the first emitted zone is not numbered 1. -/
theorem C9_zone_codes_counterexample :
    (calculate_app_margem (FOps bufId) {((1 : ℕ), (0 : ℕ))}
        [⟨{(0, 0)}, some 5⟩, ⟨{(1, 0)}, some 5⟩]).map (fun z => z.cod_app)
      = ["APP_MARGEM_002"] ∧ "APP_MARGEM_002" ≠ "APP_MARGEM_001" := by
  constructor
  · with_unfolding_all decide
  · decide

/-- Witness for C9 at a single emitting river. -/
theorem C9_zone_codes_witness :
    ∃ i row,
      ([(⟨{((0 : ℕ), (0 : ℕ))}, some 5⟩ : RiverRow (Finset Cell))]).get? i = some row ∧
      margem_zone (FOps bufId) {((0 : ℕ), (0 : ℕ))} i row = some zC9 ∧
      zC9.cod_app = "APP_MARGEM_" ++ fmt03 (i + 1) :=
  (C9_zone_codes (FOps bufId) {((0 : ℕ), (0 : ℕ))}
      [⟨{((0 : ℕ), (0 : ℕ))}, some 5⟩] [] []).1 zC9
    (by
      have he : calculate_app_margem (FOps bufId) {((0 : ℕ), (0 : ℕ))}
          [⟨{((0 : ℕ), (0 : ℕ))}, some 5⟩] = [zC9] := by with_unfolding_all rfl
      rw [he]
      exact List.mem_singleton.mpr rfl)

end AutoCar
